import Mathlib

/-!
Verification of the agent-analytics core: a shallow embedding of the
session-upsert algorithm, the ingestion handlers, the auth checks and the
query compiler, translated from the JavaScript sources (`src/db/sqlite.js`,
`src/handlers.js`, `src/auth.js`, `src/worker.js`), together with theorems
settling the specified behaviour.
-/

/-- JavaScript truthiness for an optional string: `null`/`undefined` and the
empty string are falsy. -/
def truthy : Option String → Bool
  | none => false
  | some s => !(s == "")

/-- JavaScript `a || b` on optional strings. -/
def jsOr (a b : Option String) : Option String :=
  if truthy a then a else b

theorem truthy_none : truthy none = false := rfl

/-- Session row, mirroring the `sessions` table columns touched by the upsert. -/
@[ext]
structure SessionRow where
  session_id : String
  user_id : Option String
  start_time : Int
  end_time : Int
  duration : Int
  entry_page : Option String
  exit_page : Option String
  event_count : Int
  is_bounce : Int
  deriving Repr, DecidableEq

/-- Contribution of one incoming event (or batch-aggregated count) to a
session row: timestamp, page and count, as assembled by `_upsertSession`. -/
structure SessContrib where
  session_id : String
  user_id : Option String
  ts : Int
  page : Option String
  count : Int
  deriving Repr, DecidableEq

/-- Event attribute bag fields consulted by `_upsertSession` for the page. -/
structure EventProps where
  path : Option String
  url : Option String
  deriving Repr, DecidableEq

/-- Page extraction from `_upsertSession`:
`(properties && typeof properties === 'object') ? (properties.path || properties.url || null) : null`. -/
def eventPage : Option EventProps → Option String
  | none => none
  | some p => jsOr p.path (jsOr p.url none)

/-- JavaScript `event_data._count || 1` (0 is falsy and also becomes 1). -/
def jsCount : Option Int → Int
  | none => 1
  | some n => if n = 0 then 1 else n

/-- The `INSERT ... ON CONFLICT(session_id) DO UPDATE` statement of
`SqliteAdapter._upsertSession`, as a function of the existing row (if any)
and the contribution.  The `excluded` row has
`start_time = end_time = c.ts`, `entry_page = exit_page = c.page` and
`event_count = c.count`. -/
def upsertSession (existing : Option SessionRow) (c : SessContrib) : SessionRow :=
  match existing with
  | none =>
    { session_id := c.session_id, user_id := c.user_id, start_time := c.ts,
      end_time := c.ts, duration := 0, entry_page := c.page, exit_page := c.page,
      event_count := c.count, is_bounce := 1 }
  | some s =>
    { s with
      start_time := min s.start_time c.ts,
      end_time := max s.end_time c.ts,
      duration := max s.end_time c.ts - min s.start_time c.ts,
      entry_page := if c.ts < s.start_time then c.page else s.entry_page,
      exit_page := if c.ts ≥ s.end_time then c.page else s.exit_page,
      event_count := s.event_count + c.count,
      is_bounce := if s.event_count + c.count > 1 then 0 else 1 }

/-- The full `_upsertSession(project, event_data)` body: page extraction from
the attribute bag and count defaulting, then the merge statement. -/
def upsertSessionEvent (existing : Option SessionRow) (session_id : String)
    (user_id : Option String) (ts : Int) (properties : Option EventProps)
    (count : Option Int) : SessionRow :=
  upsertSession existing ⟨session_id, user_id, ts, eventPage properties, jsCount count⟩

/-- Applying the upsert once per event, in arrival order, starting from no row. -/
def applySeq (l : List SessContrib) : Option SessionRow :=
  l.foldl (fun acc c => some (upsertSession acc c)) none

/-- C1: the session upsert merges an incoming event's contribution
(start = end = timestamp, page from the event's path/url property, count c)
into an existing row by taking the min start, max end, recomputed duration,
conditional entry/exit pages, summed event_count and recomputed bounce flag;
with no existing row it creates start = end = timestamp, duration 0,
is_bounce 1, event_count c. -/
theorem upsertSession_merge_and_create (s : SessionRow) (session_id : String)
    (user_id : Option String) (ts : Int) (properties : Option EventProps)
    (count : Option Int) :
    (upsertSessionEvent (some s) session_id user_id ts properties count).start_time
        = min s.start_time ts
    ∧ (upsertSessionEvent (some s) session_id user_id ts properties count).end_time
        = max s.end_time ts
    ∧ (upsertSessionEvent (some s) session_id user_id ts properties count).duration
        = (upsertSessionEvent (some s) session_id user_id ts properties count).end_time
          - (upsertSessionEvent (some s) session_id user_id ts properties count).start_time
    ∧ (upsertSessionEvent (some s) session_id user_id ts properties count).entry_page
        = (if ts < s.start_time then eventPage properties else s.entry_page)
    ∧ (upsertSessionEvent (some s) session_id user_id ts properties count).exit_page
        = (if ts ≥ s.end_time then eventPage properties else s.exit_page)
    ∧ (upsertSessionEvent (some s) session_id user_id ts properties count).event_count
        = s.event_count + jsCount count
    ∧ (upsertSessionEvent (some s) session_id user_id ts properties count).is_bounce
        = (if (upsertSessionEvent (some s) session_id user_id ts properties count).event_count > 1
           then 0 else 1)
    ∧ (upsertSessionEvent none session_id user_id ts properties count).start_time = ts
    ∧ (upsertSessionEvent none session_id user_id ts properties count).end_time = ts
    ∧ (upsertSessionEvent none session_id user_id ts properties count).duration = 0
    ∧ (upsertSessionEvent none session_id user_id ts properties count).is_bounce = 1
    ∧ (upsertSessionEvent none session_id user_id ts properties count).event_count
        = jsCount count
    ∧ (upsertSessionEvent none session_id user_id ts properties count).entry_page
        = eventPage properties
    ∧ (upsertSessionEvent none session_id user_id ts properties count).exit_page
        = eventPage properties := by
  refine ⟨?_, ?_, ?_, ?_, ?_, ?_, ?_, ?_, ?_, ?_, ?_, ?_, ?_, ?_⟩ <;>
    (simp only [upsertSessionEvent, upsertSession]; try rfl)

/-- C7: three events with one session_id, strictly increasing timestamps
T1 < T2 < T3 and pages P1, P2, P3, upserted in any of the six arrival orders,
produce the same final row: event_count 3, is_bounce 0, duration T3 - T1,
entry_page P1, exit_page P3. -/
theorem session_upsert_order_independent (sid : String) (T1 T2 T3 : Int)
    (P1 P2 P3 : Option String) (h12 : T1 < T2) (h23 : T2 < T3) :
    ∀ l ∈ [[(⟨sid, none, T1, P1, 1⟩ : SessContrib), ⟨sid, none, T2, P2, 1⟩, ⟨sid, none, T3, P3, 1⟩],
           [⟨sid, none, T1, P1, 1⟩, ⟨sid, none, T3, P3, 1⟩, ⟨sid, none, T2, P2, 1⟩],
           [⟨sid, none, T2, P2, 1⟩, ⟨sid, none, T1, P1, 1⟩, ⟨sid, none, T3, P3, 1⟩],
           [⟨sid, none, T2, P2, 1⟩, ⟨sid, none, T3, P3, 1⟩, ⟨sid, none, T1, P1, 1⟩],
           [⟨sid, none, T3, P3, 1⟩, ⟨sid, none, T1, P1, 1⟩, ⟨sid, none, T2, P2, 1⟩],
           [⟨sid, none, T3, P3, 1⟩, ⟨sid, none, T2, P2, 1⟩, ⟨sid, none, T1, P1, 1⟩]],
      applySeq l = some ⟨sid, none, T1, T3, T3 - T1, P1, P3, 3, 0⟩ := by
  intro l hl
  simp only [List.mem_cons, List.not_mem_nil, or_false] at hl
  rcases hl with h | h | h | h | h | h <;> subst h <;>
    · simp only [applySeq, List.foldl, upsertSession]
      congr 1
      ext <;> dsimp only <;>
        first
          | rfl
          | omega
          | (split_ifs <;> first | rfl | omega)

/-- Witness for C7 at sid "s", timestamps 1 < 2 < 3, pages a, b, c, in the
arrival order T2, T3, T1. -/
theorem session_upsert_order_independent_witness :
    applySeq [⟨"s", none, 2, some "b", 1⟩, ⟨"s", none, 3, some "c", 1⟩,
              ⟨"s", none, 1, some "a", 1⟩]
      = some ⟨"s", none, 1, 3, 2, some "a", some "c", 3, 0⟩ :=
  session_upsert_order_independent "s" 1 2 3 (some "a") (some "b") (some "c")
    (by norm_num) (by norm_num) _ (by simp)

/-- Project record, with the columns consulted by auth and rate limiting.
The daily event limit is optional: a row from an older schema may lack it,
and the JavaScript comparison `usage >= undefined` is false. -/
structure Project where
  id : String
  name : String
  owner_email : String
  project_token : String
  api_key : String
  rate_limit_events : Option Int
  deriving Repr, DecidableEq

/-- The in-memory projects cache: an association list standing for the Map
built by `loadProjectsCache` (keys `aat:<token>`, `aak:<key>`, `id:<id>`).
`none` models a context without a cache. -/
def ProjectsCache : Type := List (String × Project)

instance : DecidableEq ProjectsCache := inferInstanceAs (DecidableEq (List (String × Project)))

/-- Map lookup on the cache. -/
def cacheGet (m : ProjectsCache) (k : String) : Option Project :=
  (List.find? (fun p => p.1 == k) m).map (fun p => p.2)

/-- Number of entries in the cache (`Map.size`). -/
def cacheSize (m : ProjectsCache) : Nat := List.length m

/-- Result shape of `validateProjectToken` / `validateApiKey`. -/
structure AuthResult where
  valid : Bool
  error : Option String
  project : Option Project
  deriving Repr, DecidableEq

/-- Multi-tenant cache lookup at the top of `validateProjectToken`:
`ctx && ctx.projectsCache && bodyToken` guarding a get of `aat:<token>`. -/
def tokenCacheHit (bodyToken : Option String) (cache : Option ProjectsCache) :
    Option Project :=
  if truthy bodyToken then
    match cache with
    | some m => cacheGet m ("aat:" ++ bodyToken.getD "")
    | none => none
  else none

/-- Translation of `validateProjectToken(bodyToken, projectTokensStr, ctx)`
from `src/auth.js`: cache hit first, then the open dev mode when nothing is
configured, then the distinct missing-token error, then the env-var fallback
with trimmed comma-separated tokens. -/
def validateProjectToken (bodyToken : Option String)
    (projectTokensStr : Option String) (cache : Option ProjectsCache) : AuthResult :=
  match tokenCacheHit bodyToken cache with
  | some p => { valid := true, error := none, project := some p }
  | none =>
    if !(truthy projectTokensStr)
        && !(match cache with | some m => cacheSize m > 0 | none => false) then
      { valid := true, error := none, project := none }
    else if !(truthy bodyToken) then
      { valid := false, error := some "token required", project := none }
    else if truthy projectTokensStr
        && (((projectTokensStr.getD "").splitOn ",").map String.trim).contains
             (bodyToken.getD "") then
      { valid := true, error := none, project := none }
    else
      { valid := false, error := some "invalid token", project := none }

/-- Translation of `validateApiKey(request, url, apiKeysStr, ctx)` from
`src/auth.js`: the key comes from the `X-API-Key` header or the `key` query
parameter; cache hit first, then the env-var fallback (no trimming there). -/
def validateApiKey (headerKey queryKey : Option String)
    (apiKeysStr : Option String) (cache : Option ProjectsCache) : AuthResult :=
  let apiKey := jsOr headerKey queryKey
  if !(truthy apiKey) then { valid := false, error := none, project := none }
  else
    let hit : Option Project :=
      match cache with
      | some m => cacheGet m ("aak:" ++ apiKey.getD "")
      | none => none
    match hit with
    | some p => { valid := true, error := none, project := some p }
    | none =>
      if truthy apiKeysStr
          && ((apiKeysStr.getD "").splitOn ",").contains (apiKey.getD "") then
        { valid := true, error := none, project := none }
      else
        { valid := false, error := none, project := none }

/-- Body of a `/track` request, with the fields the handler reads. -/
structure TrackBody where
  project : Option String
  event : Option String
  user_id : Option String
  timestamp : Option Int
  token : Option String
  deriving Repr, DecidableEq

/-- Deferred storage operations collected in `writeOps`. -/
inductive WriteOp where
  | trackEvent (project event : String)
  | trackBatch (n : Nat)
  | incrementUsage (projectId : String) (kind : String)
  deriving Repr, DecidableEq

/-- The JSON response bodies the handlers build, flattened into one shape:
`{error}`, `{error, limit}`, `{ok:true}`, `{ok:true, count}` and the query
result payload. -/
structure HResponse where
  status : Nat
  error : Option String
  ok : Bool
  count : Option Nat
  limit : Option Int
  deriving Repr, DecidableEq

/-- Response `json({error: msg}, status)`. -/
def errResp (status : Nat) (msg : String) : HResponse :=
  { status := status, error := some msg, ok := false, count := none, limit := none }

/-- Response `json({ok:true})`. -/
def okResp : HResponse :=
  { status := 200, error := none, ok := true, count := none, limit := none }

/-- Whether today's usage has reached the project's configured daily limit:
`usage.event_count >= tokenAuth.project.rate_limit_events`, which is false in
JavaScript when no limit is configured. -/
def rateLimited (p : Project) (usage : Int) : Bool :=
  match p.rate_limit_events with
  | some l => usage ≥ l
  | none => false

/-- Translation of `handleTrack` from `src/handlers.js`: field validation,
then token auth, then the rate-limit read, then the deferred event write and
usage increment. `usageToday pid` models `db.getUsageToday(pid).event_count`. -/
def handleTrack (body : TrackBody) (projectTokensStr : Option String)
    (cache : Option ProjectsCache) (usageToday : String → Int) :
    HResponse × List WriteOp :=
  if !(truthy body.project) || !(truthy body.event) then
    (errResp 400 "project and event required", [])
  else
    let tokenAuth := validateProjectToken body.token projectTokensStr cache
    if !tokenAuth.valid then
      ({ status := 403, error := tokenAuth.error, ok := false, count := none,
         limit := none }, [])
    else
      match tokenAuth.project with
      | some p =>
        if rateLimited p (usageToday p.id) then
          ({ status := 429, error := some "rate limit exceeded", ok := false,
             count := none, limit := p.rate_limit_events }, [])
        else
          (okResp, [WriteOp.trackEvent (body.project.getD "") (body.event.getD ""),
                    WriteOp.incrementUsage p.id "event"])
      | none =>
        (okResp, [WriteOp.trackEvent (body.project.getD "") (body.event.getD "")])

/-- The cache holds no project records (either absent or loaded empty). -/
def cacheEmpty : Option ProjectsCache → Bool
  | none => true
  | some m => cacheSize m == 0

/-- Helper: a token-auth result that resolved a project is valid. -/
theorem validateProjectToken_project_valid (t s : Option String)
    (c : Option ProjectsCache) (p : Project)
    (h : (validateProjectToken t s c).project = some p) :
    (validateProjectToken t s c).valid = true := by
  unfold validateProjectToken at h ⊢
  cases hhit : tokenCacheHit t c with
  | some q => rfl
  | none =>
    rw [hhit] at h
    split_ifs at h

/-- C5: when the token resolves to a project whose configured daily limit is
already reached by today's usage, `/track` answers 429 with the configured
limit in the body and issues no event insert and no usage increment. -/
theorem track_rate_limit_rejects_before_write (body : TrackBody)
    (projectTokensStr : Option String) (cache : Option ProjectsCache)
    (usageToday : String → Int) (p : Project) (l : Int)
    (hproj : truthy body.project = true) (hev : truthy body.event = true)
    (hres : (validateProjectToken body.token projectTokensStr cache).project = some p)
    (hlim : p.rate_limit_events = some l)
    (husage : usageToday p.id ≥ l) :
    handleTrack body projectTokensStr cache usageToday
      = ({ status := 429, error := some "rate limit exceeded", ok := false,
           count := none, limit := some l }, []) := by
  have hvalid := validateProjectToken_project_valid body.token projectTokensStr cache p hres
  unfold handleTrack
  rw [hproj, hev]
  simp only [Bool.not_true, Bool.false_or, Bool.or_self, Bool.false_eq_true, if_false,
    hvalid, hres]
  have hrl : rateLimited p (usageToday p.id) = true := by
    unfold rateLimited
    rw [hlim]
    simpa using husage
  simp [hrl, hlim]

/-- Witness for C5: one cached project with limit 10 and usage 10. -/
theorem track_rate_limit_rejects_before_write_witness :
    handleTrack ⟨some "proj", some "click", none, none, some "tok1"⟩ none
        (some [("aat:tok1", ⟨"p1", "proj", "o@x", "tok1", "k1", some 10⟩)])
        (fun _ => 10)
      = ({ status := 429, error := some "rate limit exceeded", ok := false,
           count := none, limit := some 10 }, []) :=
  track_rate_limit_rejects_before_write
    ⟨some "proj", some "click", none, none, some "tok1"⟩ none
    (some [("aat:tok1", ⟨"p1", "proj", "o@x", "tok1", "k1", some 10⟩)])
    (fun _ => 10) ⟨"p1", "proj", "o@x", "tok1", "k1", some 10⟩ 10
    (by decide) (by decide) (by decide) (by decide) (by norm_num)

/-- C6: with no env token list and no cached project records, a tokenless
`/track` with valid fields is accepted 200 `{ok:true}`; reads are never open:
with no API keys configured every read is unauthorized; and once an env token
is configured (or a project record exists) the same tokenless `/track` is 403. -/
theorem open_ingestion_closed_reads :
    (∀ (body : TrackBody) (cache : Option ProjectsCache) (usageToday : String → Int),
        truthy body.project = true → truthy body.event = true → body.token = none →
        cacheEmpty cache = true →
        handleTrack body none cache usageToday
          = (okResp, [WriteOp.trackEvent (body.project.getD "") (body.event.getD "")]))
    ∧ (∀ (headerKey queryKey apiKeysStr : Option String) (cache : Option ProjectsCache),
        truthy apiKeysStr = false → cacheEmpty cache = true →
        (validateApiKey headerKey queryKey apiKeysStr cache).valid = false)
    ∧ (∀ (body : TrackBody) (projectTokensStr : Option String)
          (cache : Option ProjectsCache) (usageToday : String → Int),
        truthy body.project = true → truthy body.event = true → body.token = none →
        (truthy projectTokensStr = true ∨ cacheEmpty cache = false) →
        handleTrack body projectTokensStr cache usageToday
          = ({ status := 403, error := some "token required", ok := false,
               count := none, limit := none }, [])) := by
  refine ⟨?_, ?_, ?_⟩
  · intro body cache usageToday hproj hev htok hempty
    unfold handleTrack validateProjectToken tokenCacheHit
    rw [hproj, hev, htok]
    cases cache with
    | none => simp [truthy]
    | some m =>
      simp only [cacheEmpty, beq_iff_eq] at hempty
      simp [truthy, hempty]
  · intro headerKey queryKey apiKeysStr cache hkeys hempty
    unfold validateApiKey
    cases hk : truthy (jsOr headerKey queryKey) with
    | false => simp [hk]
    | true =>
      cases cache with
      | none => simp [hk, hkeys]
      | some m =>
        simp only [cacheEmpty, beq_iff_eq, cacheSize] at hempty
        rw [List.length_eq_zero] at hempty
        simp [hk, hkeys, hempty, cacheGet]
  · intro body projectTokensStr cache usageToday hproj hev htok hconf
    unfold handleTrack validateProjectToken
    rw [hproj, hev, htok]
    rcases hconf with h | h
    · cases cache with
      | none => simp [h, tokenCacheHit, truthy_none]
      | some m => simp [h, tokenCacheHit, truthy_none]
    · cases cache with
      | none => simp [cacheEmpty] at h
      | some m =>
        simp only [cacheEmpty, beq_eq_false_iff_ne, ne_eq] at h
        have hpos : 0 < cacheSize m := Nat.pos_of_ne_zero h
        simp [tokenCacheHit, truthy_none, hpos]

/-- Witness for C6: all three parts at concrete configurations. -/
theorem open_ingestion_closed_reads_witness :
    (handleTrack ⟨some "proj", some "click", none, none, none⟩ none (some [])
        (fun _ => 0)
      = (okResp, [WriteOp.trackEvent "proj" "click"]))
    ∧ ((validateApiKey (some "anykey") none none (some [])).valid = false)
    ∧ (handleTrack ⟨some "proj", some "click", none, none, none⟩ (some "tokA") (some [])
        (fun _ => 0)
      = ({ status := 403, error := some "token required", ok := false,
           count := none, limit := none }, [])) :=
  ⟨open_ingestion_closed_reads.1 ⟨some "proj", some "click", none, none, none⟩
      (some []) (fun _ => 0) (by decide) (by decide) rfl (by decide),
   open_ingestion_closed_reads.2.1 (some "anykey") none none (some []) (by decide)
      (by decide),
   open_ingestion_closed_reads.2.2 ⟨some "proj", some "click", none, none, none⟩
      (some "tokA") (some []) (fun _ => 0) (by decide) (by decide) rfl
      (Or.inl (by decide))⟩

/-- Allowlists of `SqliteAdapter.query` in `src/db/sqlite.js`. -/
def ALLOWED_METRICS : List String :=
  ["event_count", "unique_users", "session_count", "bounce_rate", "avg_duration"]

def ALLOWED_GROUP_BY : List String := ["event", "date", "user_id", "session_id"]

def FILTERABLE_FIELDS : List String := ["event", "user_id", "date"]

def FILTER_OPS_KEYS : List String := ["eq", "neq", "gt", "lt", "gte", "lte"]

def ALLOWED_ORDER : List String := ["event_count", "unique_users", "date", "event"]

/-- Lookup in the `FILTER_OPS` object literal: operator name to SQL symbol. -/
def lookupOp (op : String) : Option String :=
  if op == "eq" then some "=" else if op == "neq" then some "!="
  else if op == "gt" then some ">" else if op == "lt" then some "<"
  else if op == "gte" then some ">=" else if op == "lte" then some "<=" else none

/-- Error message shape shared by the three allowlist rejections:
`invalid <tag>: <x>. allowed: <list>`. -/
def allowedMsg (tag : String) (allowed : List String) (x : String) : String :=
  "invalid " ++ tag ++ ": " ++ x ++ ". allowed: " ++ String.intercalate ", " allowed

/-- The `for (const m of metrics) if (!ALLOWED.includes(m)) throw` loop:
the first value outside the allowlist raises. -/
def checkAllowed (tag : String) (allowed : List String) : List String → Except String Unit
  | [] => .ok ()
  | x :: xs =>
    match allowed.contains x with
    | true => checkAllowed tag allowed xs
    | false => .error (allowedMsg tag allowed x)

/-- One `/query` filter object; `none` models an absent (`undefined`) field. -/
structure QFilter where
  field : Option String
  op : Option String
  value : Option String
  deriving Repr, DecidableEq

/-- Body of a `/query` request, with `SqliteAdapter.query`'s parameter defaults
applied at the use sites. -/
structure QueryReq where
  project : Option String
  metrics : Option (List String)
  filters : Option (List QFilter)
  date_from : Option String
  date_to : Option String
  group_by : Option (List String)
  order_by : Option String
  order : Option String
  limit : Option Int
  deriving Repr, DecidableEq

/-- Character-list prefix test, the semantics of `String.startsWith`. -/
def strStartsWith (s pre : String) : Bool :=
  List.isPrefixOf pre.data s.data

/-- Character-list drop, the semantics of `String.drop` on ASCII text. -/
def strDrop (s : String) (n : Nat) : String :=
  String.mk (s.data.drop n)

/-- Whether a property key matches a safe identifier pattern. -/
def isSafePropertyKey (k : String) : Bool :=
  !(k.data.isEmpty) && k.data.all (fun c => c.isAlphanum || c == '_')

/-- Modelled from the spec: `validatePropertyKey` is imported from the
`@agent-analytics/core` package, whose source file is not part of this tree;
the spec requires the JSON property key to match a safe identifier pattern
before it may be substituted into the query text, anything else being a
400-class rejection. -/
def validatePropertyKey (k : String) : Except String Unit :=
  if isSafePropertyKey k then .ok () else .error ("invalid property key: " ++ k)

/-- Filter compilation loop of `SqliteAdapter.query` (`src/db/sqlite.js`):
skip filters missing field/op/value, reject unknown operators with an
enumerating message, bind allowlisted fields as `field op ?`, compile
`properties.<key>` through `validatePropertyKey` into a `json_extract` against
the validated key, and silently skip any other field.  Returns the extra
where-fragments and the bound parameter values. -/
def sqliteCompileFilters : List QFilter → Except String (List String × List String)
  | [] => .ok ([], [])
  | f :: fs =>
    if !(truthy f.field) || !(truthy f.op) || f.value.isNone then
      sqliteCompileFilters fs
    else
      match lookupOp (f.op.getD "") with
      | none => .error (allowedMsg "filter op" FILTER_OPS_KEYS (f.op.getD ""))
      | some sqlOp =>
        if FILTERABLE_FIELDS.contains (f.field.getD "") then
          match sqliteCompileFilters fs with
          | .error e => .error e
          | .ok (ws, ps) =>
            .ok (((f.field.getD "") ++ " " ++ sqlOp ++ " ?") :: ws,
                 (f.value.getD "") :: ps)
        else if strStartsWith (f.field.getD "") "properties." then
          match validatePropertyKey (strDrop (f.field.getD "") 11) with
          | .error e => .error e
          | .ok _ =>
            match sqliteCompileFilters fs with
            | .error e => .error e
            | .ok (ws, ps) =>
              .ok (("json_extract(properties, \x27$." ++ strDrop (f.field.getD "") 11
                      ++ "\x27) " ++ sqlOp ++ " ?") :: ws,
                   (f.value.getD "") :: ps)
        else sqliteCompileFilters fs

/-- SELECT fragments pushed for one metric by `SqliteAdapter.query`. -/
def metricSelect (m : String) : List String :=
  (if m == "event_count" then ["COUNT(*) as event_count"] else [])
  ++ (if m == "unique_users" then ["COUNT(DISTINCT user_id) as unique_users"] else [])
  ++ (if m == "session_count" then ["COUNT(DISTINCT session_id) as session_count"] else [])
  ++ (if m == "bounce_rate" then ["COUNT(DISTINCT session_id) as _session_count_for_bounce"] else [])
  ++ (if m == "avg_duration" then ["COUNT(DISTINCT session_id) as _session_count_for_duration"] else [])

/-- Compiled query plan: the dynamic fragments of the SQL text, the bound
parameter values, and the bound LIMIT value. -/
structure Compiled where
  selectParts : List String
  whereParts : List String
  params : List String
  orderField : String
  orderDir : String
  maxLimit : Int
  sql : String
  deriving Repr, DecidableEq

/-- Plan compilation of `SqliteAdapter.query`: metric and group_by allowlist
checks, select assembly, date window defaults (`defaultFrom`/`defaultTo` stand
for `parseSince(null)`/`today()`), filter compilation, ordering resolution and
the `Math.min(limit, 1000)` bound with default 100. -/
def sqliteQueryCompile (req : QueryReq) (defaultFrom defaultTo : String) :
    Except String Compiled :=
  match checkAllowed "metric" ALLOWED_METRICS (req.metrics.getD ["event_count"]) with
  | .error e => .error e
  | .ok _ =>
  match checkAllowed "group_by" ALLOWED_GROUP_BY (req.group_by.getD []) with
  | .error e => .error e
  | .ok _ =>
  match sqliteCompileFilters (req.filters.getD []) with
  | .error e => .error e
  | .ok (fws, fps) =>
    let group_by := req.group_by.getD []
    let selectParts0 := group_by ++ ((req.metrics.getD ["event_count"]).map metricSelect).flatten
    let selectParts := if selectParts0.isEmpty then ["COUNT(*) as event_count"] else selectParts0
    let fromDate := if truthy req.date_from then req.date_from.getD "" else defaultFrom
    let toDate := if truthy req.date_to then req.date_to.getD "" else defaultTo
    let whereParts := ["project_id = ?", "date >= ?", "date <= ?"] ++ fws
    let params := [req.project.getD "", fromDate, toDate] ++ fps
    let sql0 := "SELECT " ++ String.intercalate ", " selectParts
        ++ " FROM events WHERE " ++ String.intercalate " AND " whereParts
    let sql1 := if group_by.isEmpty then sql0
        else sql0 ++ " GROUP BY " ++ String.intercalate ", " group_by
    let orderField :=
      if truthy req.order_by && ALLOWED_ORDER.contains (req.order_by.getD "")
      then req.order_by.getD ""
      else if group_by.contains "date" then "date" else "event_count"
    let orderDir := if req.order == some "asc" then "ASC" else "DESC"
    let sql2 := sql1 ++ " ORDER BY " ++ orderField ++ " " ++ orderDir ++ " LIMIT ?"
    let maxLimit := min (req.limit.getD 100) 1000
    .ok { selectParts := selectParts, whereParts := whereParts, params := params,
          orderField := orderField, orderDir := orderDir, maxLimit := maxLimit,
          sql := sql2 }

/-- SQLite semantics of the bound `LIMIT ?` parameter applied to the rows the
plan would otherwise produce: a negative limit means no limit. -/
def sqlLimitRows (maxLimit : Int) (rows : List String) : List String :=
  if maxLimit < 0 then rows else rows.take maxLimit.toNat

/-- Result shape of `SqliteAdapter.query`: `count` is `rows.length` after the
limit was applied. -/
structure QueryResult where
  metrics : List String
  group_by : List String
  rows : List String
  count : Nat
  deriving Repr, DecidableEq

/-- Execution of `SqliteAdapter.query` against `groups`, the ordered grouped
rows the database would produce for the compiled plan before the LIMIT. -/
def sqliteQueryRun (req : QueryReq) (defaultFrom defaultTo : String)
    (groups : List String) : Except String QueryResult :=
  match sqliteQueryCompile req defaultFrom defaultTo with
  | .error e => .error e
  | .ok c =>
    let rows := sqlLimitRows c.maxLimit groups
    .ok { metrics := req.metrics.getD ["event_count"],
          group_by := req.group_by.getD [], rows := rows, count := rows.length }

/-- Filter compilation loop of the inline `/query` route in `src/worker.js`:
same skipping and binding, but the `properties.<key>` branch interpolates the
key into the query text with no validation at all, and an unknown operator
there is skipped rather than rejected. -/
def workerCompileFilters : List QFilter → Except String (List String × List String)
  | [] => .ok ([], [])
  | f :: fs =>
    if !(truthy f.field) || !(truthy f.op) || f.value.isNone then
      workerCompileFilters fs
    else
      if FILTERABLE_FIELDS.contains (f.field.getD "") then
        match lookupOp (f.op.getD "") with
        | none => .error (allowedMsg "filter op" FILTER_OPS_KEYS (f.op.getD ""))
        | some sqlOp =>
          match workerCompileFilters fs with
          | .error e => .error e
          | .ok (ws, ps) =>
            .ok (((f.field.getD "") ++ " " ++ sqlOp ++ " ?") :: ws,
                 (f.value.getD "") :: ps)
      else if strStartsWith (f.field.getD "") "properties." then
        match lookupOp (f.op.getD "") with
        | none => workerCompileFilters fs
        | some sqlOp =>
          match workerCompileFilters fs with
          | .error e => .error e
          | .ok (ws, ps) =>
            .ok (("json_extract(properties, \x27$." ++ strDrop (f.field.getD "") 11
                    ++ "\x27) " ++ sqlOp ++ " ?") :: ws,
                 (f.value.getD "") :: ps)
      else workerCompileFilters fs

/-- A property-filter field whose key is hostile SQL text, not an identifier. -/
def injectionKey : String := "x\x27) OR (\x271\x27=\x271"

def injectionFilter : QFilter :=
  { field := some ("properties." ++ injectionKey), op := some "eq", value := some "v" }

/-- C2: the worker's `/query` filter compiler lets a `properties.<key>` key
reach the compiled query text with no safe-identifier validation: the hostile
key text is interpolated verbatim into the where-clause, while the sqlite
adapter path rejects the same filter through `validatePropertyKey`. -/
theorem worker_query_property_key_injection :
    workerCompileFilters [injectionFilter]
      = .ok (["json_extract(properties, \x27$.x\x27) OR (\x271\x27=\x271\x27) = ?"], ["v"])
    ∧ isSafePropertyKey injectionKey = false
    ∧ sqliteCompileFilters [injectionFilter]
      = .error ("invalid property key: " ++ injectionKey) := by
  refine ⟨?_, ?_, ?_⟩ <;> rfl

/-- Helper: the limit and ordering fields of a successfully compiled plan. -/
theorem sqliteQueryCompile_fields (req : QueryReq) (dF dT : String) (c : Compiled)
    (h : sqliteQueryCompile req dF dT = .ok c) :
    c.maxLimit = min (req.limit.getD 100) 1000
    ∧ c.orderField
        = (if truthy req.order_by && ALLOWED_ORDER.contains (req.order_by.getD "")
           then req.order_by.getD ""
           else if (req.group_by.getD []).contains "date" then "date" else "event_count")
    ∧ c.orderDir = (if req.order == some "asc" then "ASC" else "DESC") := by
  unfold sqliteQueryCompile at h
  split at h
  · exact absurd h (by simp)
  · split at h
    · exact absurd h (by simp)
    · split at h
      · exact absurd h (by simp)
      · simp only [Except.ok.injEq] at h
        subst h
        exact ⟨rfl, rfl, rfl⟩

/-- A `/query` request asking for `limit: 0`. -/
def limitZeroReq : QueryReq :=
  ⟨some "p", none, none, none, none, none, none, none, some 0⟩

/-- C8 counterexample: with `limit: 0` the compiled effective limit is 0 —
not clamped up into [1, 1000] as claimed — and the query returns zero rows
even though a matching group exists. -/
theorem query_limit_zero_not_clamped :
    (sqliteQueryCompile limitZeroReq "A" "B").toOption.map Compiled.maxLimit = some 0
    ∧ ¬ ((1:Int) ≤ 0)
    ∧ sqliteQueryRun limitZeroReq "A" "B" ["g1"]
        = .ok ⟨["event_count"], [], [], 0⟩ := by
  refine ⟨by rfl, by norm_num, by rfl⟩

/-- C8 (amended): the effective limit is `min(limit, 1000)` with default 100
(no lower clamp), the returned `count` always equals the number of rows
actually returned after that limit is applied, and `limit=5000` yields at most
1000 rows. -/
theorem query_limit_min_and_count (req : QueryReq) (dF dT : String)
    (groups : List String) (c : Compiled)
    (h : sqliteQueryCompile req dF dT = .ok c) :
    c.maxLimit = min (req.limit.getD 100) 1000
    ∧ sqliteQueryRun req dF dT groups
        = .ok { metrics := req.metrics.getD ["event_count"],
                group_by := req.group_by.getD [],
                rows := sqlLimitRows c.maxLimit groups,
                count := (sqlLimitRows c.maxLimit groups).length }
    ∧ (req.limit = some 5000 → (sqlLimitRows c.maxLimit groups).length ≤ 1000) := by
  have hml := (sqliteQueryCompile_fields req dF dT c h).1
  refine ⟨hml, ?_, ?_⟩
  · unfold sqliteQueryRun
    rw [h]
  · intro h5
    rw [hml, h5]
    have hmin : min (((some (5000:Int)).getD 100)) 1000 = 1000 := by
      norm_num [min_def]
    rw [hmin]
    simp [sqlLimitRows, List.length_take]

/-- The `limit: 5000` request of C8's spec example, and its compiled plan. -/
def limit5000Req : QueryReq :=
  ⟨some "p", none, none, none, none, none, none, none, some 5000⟩

def limit5000Compiled : Compiled :=
  ⟨["COUNT(*) as event_count"], ["project_id = ?", "date >= ?", "date <= ?"],
   ["p", "A", "B"], "event_count", "DESC", 1000,
   "SELECT COUNT(*) as event_count FROM events WHERE project_id = ? AND date >= ? AND date <= ? ORDER BY event_count DESC LIMIT ?"⟩

/-- Witness for C8 at `limit: 5000` over two candidate rows. -/
theorem query_limit_min_and_count_witness :
    limit5000Compiled.maxLimit = min ((limit5000Req.limit).getD 100) 1000
    ∧ sqliteQueryRun limit5000Req "A" "B" ["g1", "g2"]
        = .ok { metrics := limit5000Req.metrics.getD ["event_count"],
                group_by := limit5000Req.group_by.getD [],
                rows := sqlLimitRows limit5000Compiled.maxLimit ["g1", "g2"],
                count := (sqlLimitRows limit5000Compiled.maxLimit ["g1", "g2"]).length }
    ∧ (limit5000Req.limit = some 5000 →
        (sqlLimitRows limit5000Compiled.maxLimit ["g1", "g2"]).length ≤ 1000) :=
  query_limit_min_and_count limit5000Req "A" "B" ["g1", "g2"] limit5000Compiled (by rfl)

/-- A `/query` request whose only requested metric is `unique_users`, with no
explicit ordering and no grouping. -/
def uniqueUsersReq : QueryReq :=
  ⟨some "p", some ["unique_users"], none, none, none, none, none, none, none⟩

/-- C9 counterexample: with no explicit `order_by` and no date grouping, the
sort field falls back to the literal `event_count`, not to the primary
requested metric (`unique_users` here). -/
theorem query_order_fallback_not_primary_metric :
    (sqliteQueryCompile uniqueUsersReq "A" "B").toOption.map Compiled.orderField
      = some "event_count"
    ∧ ¬ ("event_count" = "unique_users") := by
  refine ⟨by rfl, by decide⟩

/-- C9 (amended): an explicit truthy `order_by` is used exactly when it is in
{event_count, unique_users, date, event}; otherwise the sort field is `date`
when grouping by date and the literal `event_count` otherwise (not the primary
requested metric); the direction is DESC unless `order` is exactly `asc`. -/
theorem query_ordering_rules (req : QueryReq) (dF dT : String) (c : Compiled)
    (h : sqliteQueryCompile req dF dT = .ok c) :
    ((truthy req.order_by && ALLOWED_ORDER.contains (req.order_by.getD "")) = true →
        c.orderField = req.order_by.getD "")
    ∧ ((truthy req.order_by && ALLOWED_ORDER.contains (req.order_by.getD "")) = false →
        c.orderField
          = (if (req.group_by.getD []).contains "date" then "date" else "event_count"))
    ∧ c.orderDir = (if req.order == some "asc" then "ASC" else "DESC") := by
  obtain ⟨-, hof, hod⟩ := sqliteQueryCompile_fields req dF dT c h
  refine ⟨?_, ?_, hod⟩
  · intro hcond
    rw [hof, hcond]
    simp
  · intro hcond
    rw [hof, hcond]
    simp

/-- An ascending date-ordered request and its compiled plan. -/
def dateAscReq : QueryReq :=
  ⟨some "p", none, none, none, none, none, some "date", some "asc", none⟩

def dateAscCompiled : Compiled :=
  ⟨["COUNT(*) as event_count"], ["project_id = ?", "date >= ?", "date <= ?"],
   ["p", "A", "B"], "date", "ASC", 100,
   "SELECT COUNT(*) as event_count FROM events WHERE project_id = ? AND date >= ? AND date <= ? ORDER BY date ASC LIMIT ?"⟩

/-- Witness for C9: explicit `order_by: date, order: asc` is honored. -/
theorem query_ordering_rules_witness :
    ((truthy dateAscReq.order_by
        && ALLOWED_ORDER.contains (dateAscReq.order_by.getD "")) = true →
        dateAscCompiled.orderField = dateAscReq.order_by.getD "")
    ∧ ((truthy dateAscReq.order_by
        && ALLOWED_ORDER.contains (dateAscReq.order_by.getD "")) = false →
        dateAscCompiled.orderField
          = (if (dateAscReq.group_by.getD []).contains "date" then "date"
             else "event_count"))
    ∧ dateAscCompiled.orderDir
        = (if dateAscReq.order == some "asc" then "ASC" else "DESC") :=
  query_ordering_rules dateAscReq "A" "B" dateAscCompiled (by rfl)

/-- One event object inside a `/track/batch` request body. -/
structure BatchEvent where
  project : Option String
  event : Option String
  token : Option String
  user_id : Option String
  session_id : Option String
  timestamp : Option Int
  deriving Repr, DecidableEq

/-- Translation of `handleTrackBatch` from `src/handlers.js`: array-shape and
size validation first (`none` models an absent or non-array `events` field),
then `token || events[0].token`, token auth, and the deferred batch write plus
one usage increment per event for multi-tenant projects. -/
def handleTrackBatch (events : Option (List BatchEvent)) (token : Option String)
    (projectTokensStr : Option String) (cache : Option ProjectsCache) :
    HResponse × List WriteOp :=
  match events with
  | none => (errResp 400 "events array required", [])
  | some evts =>
    if evts.length == 0 then (errResp 400 "events array required", [])
    else if evts.length > 100 then (errResp 400 "max 100 events per batch", [])
    else
      let batchToken := jsOr token (evts.head?.bind (fun e => e.token))
      let tokenAuth := validateProjectToken batchToken projectTokensStr cache
      if !tokenAuth.valid then
        ({ status := 403, error := tokenAuth.error, ok := false, count := none,
           limit := none }, [])
      else
        ({ status := 200, error := none, ok := true, count := some evts.length,
           limit := none },
         WriteOp.trackBatch evts.length ::
           (match tokenAuth.project with
            | some p => List.replicate evts.length (WriteOp.incrementUsage p.id "event")
            | none => []))

/-- C4 counterexample: a batch whose single event object has no `project` and
no `event` field passes validation and is accepted 200 with the write issued —
the handler never validates individual events, contradicting the claim that
each event independently requires non-empty project and event fields. -/
theorem trackBatch_missing_fields_accepted :
    handleTrackBatch (some [⟨none, none, none, none, none, none⟩]) none none none
      = ({ status := 200, error := none, ok := true, count := some 1, limit := none },
         [WriteOp.trackBatch 1]) := by
  rfl

/-- C4 (amended): an absent/non-array or empty `events` field, or a batch of
more than 100 events — even one whose events are all individually valid — is
rejected 400 with no storage work, before and regardless of any token
configuration; individual events in an accepted batch are not validated by the
handler. -/
theorem trackBatch_shape_validation :
    (∀ (token projectTokensStr : Option String) (cache : Option ProjectsCache),
        handleTrackBatch none token projectTokensStr cache
          = (errResp 400 "events array required", []))
    ∧ (∀ (token projectTokensStr : Option String) (cache : Option ProjectsCache),
        handleTrackBatch (some []) token projectTokensStr cache
          = (errResp 400 "events array required", []))
    ∧ (∀ (evts : List BatchEvent) (token projectTokensStr : Option String)
          (cache : Option ProjectsCache),
        evts.length > 100 →
        handleTrackBatch (some evts) token projectTokensStr cache
          = (errResp 400 "max 100 events per batch", [])) := by
  refine ⟨fun _ _ _ => rfl, fun _ _ _ => rfl, ?_⟩
  intro evts token projectTokensStr cache hlen
  have h0 : (evts.length == 0) = false := by
    rw [beq_eq_false_iff_ne]
    omega
  simp only [handleTrackBatch, h0, hlen]
  simp

/-- Witness for C4: a 101-event batch of individually valid events is rejected
400 under an open token configuration. -/
theorem trackBatch_shape_validation_witness :
    handleTrackBatch
        (some (List.replicate 101 ⟨some "proj", some "click", none, none, none, none⟩))
        none none none
      = (errResp 400 "max 100 events per batch", []) :=
  trackBatch_shape_validation.2.2
    (List.replicate 101 ⟨some "proj", some "click", none, none, none, none⟩)
    none none none (by simp)

/-- Project row created by `POST /projects` (D1Adapter.createProject). -/
structure ProjectRow where
  id : String
  name : String
  owner_email : String
  project_token : String
  api_key : String
  deriving Repr, DecidableEq

/-- Translation of `db.listProjectsByOwner(email)`: the rows whose owner
matches. -/
def listProjectsByOwner (projects : List ProjectRow) (email : String) :
    List ProjectRow :=
  projects.filter (fun p => p.owner_email == email)

/-- Translation of `handleCreateProject` from `src/handlers.js`: name/email
validation, the free-tier limit of 3 projects per owner email, then the insert
(`newId`/`newToken`/`newKey` stand for the generated credentials). -/
def handleCreateProject (projects : List ProjectRow)
    (name email : Option String) (newId newToken newKey : String) :
    HResponse × List ProjectRow :=
  if !(truthy name) || !(truthy email) then
    (errResp 400 "name and email required", projects)
  else if (listProjectsByOwner projects (email.getD "")).length ≥ 3 then
    (errResp 403 "project limit reached (3 for free tier). Contact us for more.",
     projects)
  else
    ({ status := 201, error := none, ok := true, count := none, limit := none },
     projects ++ [⟨newId, name.getD "", email.getD "", newToken, newKey⟩])

/-- C10: when the owner email already owns 3 or more projects, creation is
refused 403 and the project table is unchanged; and the create operation
preserves the invariant that every owner email has at most 3 projects. -/
theorem createProject_owner_limit (projects : List ProjectRow)
    (name email : Option String) (newId newToken newKey : String) :
    ((truthy name = true → truthy email = true →
        (listProjectsByOwner projects (email.getD "")).length ≥ 3 →
        handleCreateProject projects name email newId newToken newKey
          = (errResp 403 "project limit reached (3 for free tier). Contact us for more.",
             projects)))
    ∧ (∀ e : String,
        (listProjectsByOwner projects e).length ≤ 3 →
        (listProjectsByOwner
            (handleCreateProject projects name email newId newToken newKey).2 e).length
          ≤ 3) := by
  constructor
  · intro hname hemail hlim
    unfold handleCreateProject
    rw [hname, hemail]
    simp [hlim]
  · intro e hcount
    unfold handleCreateProject
    split
    · exact hcount
    · split
      · exact hcount
      · rename_i hvalid hunder
        simp only [listProjectsByOwner, List.filter_append, List.length_append]
          at hcount hunder ⊢
        have hone : (List.filter (fun p => p.owner_email == e)
            [(⟨newId, name.getD "", email.getD "", newToken, newKey⟩ : ProjectRow)]).length
            ≤ 1 := by
          simpa using List.length_filter_le (fun p => p.owner_email == e)
            [(⟨newId, name.getD "", email.getD "", newToken, newKey⟩ : ProjectRow)]
        by_cases he : email.getD "" = e
        · subst he
          omega
        · have hnil : (List.filter (fun p => p.owner_email == e)
              [(⟨newId, name.getD "", email.getD "", newToken, newKey⟩ : ProjectRow)]).length
              = 0 := by
            simp [he]
          omega

/-- Witness for C10: an owner with three projects is refused a fourth, and the
invariant holds on that state. -/
theorem createProject_owner_limit_witness :
    (handleCreateProject
        [⟨"1", "a", "o@x", "t1", "k1"⟩, ⟨"2", "b", "o@x", "t2", "k2"⟩,
         ⟨"3", "c", "o@x", "t3", "k3"⟩]
        (some "d") (some "o@x") "4" "t4" "k4"
      = (errResp 403 "project limit reached (3 for free tier). Contact us for more.",
         [⟨"1", "a", "o@x", "t1", "k1"⟩, ⟨"2", "b", "o@x", "t2", "k2"⟩,
          ⟨"3", "c", "o@x", "t3", "k3"⟩]))
    ∧ ((listProjectsByOwner
          (handleCreateProject
            [⟨"1", "a", "o@x", "t1", "k1"⟩, ⟨"2", "b", "o@x", "t2", "k2"⟩,
             ⟨"3", "c", "o@x", "t3", "k3"⟩]
            (some "d") (some "o@x") "4" "t4" "k4").2 "o@x").length ≤ 3) :=
  ⟨(createProject_owner_limit
      [⟨"1", "a", "o@x", "t1", "k1"⟩, ⟨"2", "b", "o@x", "t2", "k2"⟩,
       ⟨"3", "c", "o@x", "t3", "k3"⟩]
      (some "d") (some "o@x") "4" "t4" "k4").1 (by decide) (by decide) (by decide),
   (createProject_owner_limit
      [⟨"1", "a", "o@x", "t1", "k1"⟩, ⟨"2", "b", "o@x", "t2", "k2"⟩,
       ⟨"3", "c", "o@x", "t3", "k3"⟩]
      (some "d") (some "o@x") "4" "t4" "k4").2 "o@x" (by decide)⟩
